import Mathlib

/-
Verification development for the SkyQ set-top-box integration
(uc-intg-skyq).  The definitions below are a shallow embedding of the
command-transport client (uc_intg_skyq/client.py), the media-player
status refresh (uc_intg_skyq/media_player.py) and the remote entity's
power handling (uc_intg_skyq/remote.py).  Network and device behaviour
is abstracted into small inductive types; each definition's doc comment
names the source function and lines it embeds.
-/

namespace SkyQ

/-- Behaviour of the device's TCP remote-control port for one connection
attempt: it either accepts and replies with `resp` (already decoded from
UTF-8), accepts but never replies (the read times out), refuses the
connection, is unreachable, or is too slow to accept (connect timeout). -/
inductive NetBehavior where
  | replies (resp : String)
  | silent
  | refuses
  | unreachable
  | connectSlow
deriving DecidableEq, Repr, BEq

/-- Observable wire-level events of one TCP send attempt, in order:
the connection being opened, the command bytes being written, and the
connection being closed. -/
inductive WireEvent where
  | opened
  | wrote (cmd : String)
  | closed
deriving DecidableEq, Repr, BEq

/-- The exceptions that the body of `_send_single_tcp_command` can raise:
connection refused / host unreachable / connect timeout from
`asyncio.open_connection` under `wait_for(..., 5.0)`, and the read
timeout from `reader.read(100)` under `wait_for(..., 3.0)`. -/
inductive TcpError where
  | connectionRefused
  | hostUnreachable
  | connectTimeout
  | readTimeout
deriving DecidableEq, Repr, BEq

/-- Python `str.strip()`: remove leading and trailing whitespace
(executable over the character list so that concrete instances reduce). -/
def pyStrip (s : String) : String :=
  String.mk (((s.data.dropWhile Char.isWhitespace).reverse.dropWhile Char.isWhitespace).reverse)

/-- Python `str.startswith(p)`. -/
def pyStartsWith (s p : String) : Bool :=
  p.data.isPrefixOf s.data

/-- Embedding of the try-block of `SkyQClient._send_single_tcp_command`
(client.py lines 216-245).  On a raise, the event list records exactly
the wire events that happened before the raise point: in the `silent`
case the connection was opened and the command written, but the
`writer.close()` at line 233 is never reached.  In the `replies` case
the close runs, and the returned boolean is
`response.decode(...).strip().startswith("SKY")` (lines 230-238). -/
def send_single_tcp_command_body (cmd : String) (b : NetBehavior) :
    Except (TcpError × List WireEvent) (Bool × List WireEvent) :=
  match b with
  | .refuses => Except.error (TcpError.connectionRefused, [])
  | .unreachable => Except.error (TcpError.hostUnreachable, [])
  | .connectSlow => Except.error (TcpError.connectTimeout, [])
  | .silent => Except.error (TcpError.readTimeout, [WireEvent.opened, WireEvent.wrote cmd])
  | .replies r =>
      Except.ok (pyStartsWith (pyStrip r) "SKY",
        [WireEvent.opened, WireEvent.wrote cmd, WireEvent.closed])

/-- Embedding of `SkyQClient._send_single_tcp_command` (client.py lines
216-249): the try-block above wrapped in the `except Exception` handler
at lines 247-249, which logs and returns `False`.  Returns the boolean
result together with the wire events of the attempt. -/
def send_single_tcp_command (cmd : String) (b : NetBehavior) : Bool × List WireEvent :=
  match send_single_tcp_command_body cmd b with
  | Except.ok r => r
  | Except.error (_, evs) => (false, evs)

/-- Connections still open after a sequence of wire events: opens minus
closes. -/
def openConnectionsAfter (evs : List WireEvent) : Nat :=
  evs.count WireEvent.opened - evs.count WireEvent.closed

/-- The `REMOTE_COMMANDS` dictionary of `SkyQClient` (client.py lines
24-59), as an association list from caller-facing token to the string
written on the wire. -/
def REMOTE_COMMANDS : List (String × String) :=
  [("power", "power"), ("standby", "standby"), ("on", "on"), ("off", "off"),
   ("up", "up"), ("down", "down"), ("left", "left"), ("right", "right"),
   ("select", "select"), ("back", "back"), ("home", "home"), ("menu", "menu"),
   ("play", "play"), ("pause", "pause"), ("stop", "stop"), ("record", "record"),
   ("rewind", "rewind"), ("fast_forward", "fastforward"),
   ("guide", "guide"), ("info", "info"),
   ("0", "0"), ("1", "1"), ("2", "2"), ("3", "3"), ("4", "4"),
   ("5", "5"), ("6", "6"), ("7", "7"), ("8", "8"), ("9", "9"),
   ("red", "red"), ("green", "green"), ("yellow", "yellow"), ("blue", "blue"),
   ("volume_up", "volumeup"), ("volume_down", "volumedown"),
   ("mute", "mute"), ("sky", "sky"), ("search", "search"), ("text", "text"),
   ("help", "help"), ("services", "services")]

/-- The wire token for a caller command: `REMOTE_COMMANDS[command]`
(defaults to the command itself; under the validation in `press` the
lookup always succeeds). -/
def skyqOf (c : String) : String :=
  (List.lookup c REMOTE_COMMANDS).getD c

/-- The send loop of `SkyQClient.press` (client.py lines 266-282),
threading the loop index `i` used to select the device behaviour
`dev i` of the i-th attempt.  Returns the count of successful sends
(`successful_commands`), the wire tokens passed to
`_send_single_tcp_command` in order, and the concatenated wire events.
The `none` branch models the per-iteration `except` handler (lines
281-282), which logs and continues; it is unreachable after the
validation loop. -/
def press_loop (dev : Nat → NetBehavior) : List String → Nat → Nat × List String × List WireEvent
  | [], _ => (0, [], [])
  | c :: rest, i =>
      match List.lookup c REMOTE_COMMANDS with
      | none => press_loop dev rest (i + 1)
      | some sk =>
          let r := send_single_tcp_command sk (dev i)
          let t := press_loop dev rest (i + 1)
          ((if r.1 then 1 else 0) + t.1, sk :: t.2.1, r.2 ++ t.2.2)

/-- The per-command boolean outcomes of the send loop, in order. -/
def press_results (dev : Nat → NetBehavior) : List String → Nat → List Bool
  | [], _ => []
  | c :: rest, i =>
      match List.lookup c REMOTE_COMMANDS with
      | none => press_results dev rest (i + 1)
      | some sk => (send_single_tcp_command sk (dev i)).1 :: press_results dev rest (i + 1)

/-- Embedding of `SkyQClient.press` (client.py lines 251-287): returns
`False` for an empty list (line 253), returns `False` if any token is
not in `REMOTE_COMMANDS` (lines 256-259, before any send), otherwise
runs the send loop over every command and returns
`successful_commands == total_commands` (line 287).  The result carries
the attempted wire tokens and wire events so that theorems can speak
about what was sent.  `send_key_sequence` (lines 293-295) delegates to
this function unchanged. -/
def press (dev : Nat → NetBehavior) (commands : List String) :
    Bool × List String × List WireEvent :=
  if commands.isEmpty then (false, [], [])
  else if commands.any (fun c => (List.lookup c REMOTE_COMMANDS).isNone) then (false, [], [])
  else
    let t := press_loop dev commands 0
    (t.1 == commands.length, t.2.1, t.2.2)

/-- Abstract model of one SkyQ device as seen over its two surfaces:
whether the HTTP REST surface is up and serving JSON, the value of the
`activeStandby` flag in `GET /as/system/information`, the top-level keys
of the JSON document served by `GET /as/services`, and the behaviour of
the TCP remote-control port. -/
structure SkyQDevice where
  httpUp : Bool
  activeStandby : Bool
  servicesKeys : List String
  tcp : NetBehavior
deriving DecidableEq, Repr

/-- Embedding of `SkyQClient.get_services` (client.py lines 148-150) at
the model level: the parsed JSON document's top-level keys when the HTTP
surface is up, `none` when the request raises. -/
def get_services (d : SkyQDevice) : Option (List String) :=
  if d.httpUp then some d.servicesKeys else none

/-- Embedding of `SkyQClient.test_connection` (client.py lines 102-110):
calls `get_services` and returns `services is not None and "services" in
services`; any exception is caught and yields `False`.  The TCP
remote-control port is never touched by this function. -/
def test_connection (d : SkyQDevice) : Bool :=
  match get_services d with
  | some keys => keys.contains "services"
  | none => false

/-- A Python value as it flows into the `is True` / `is False` identity
tests of the remote entity's power handlers: either a string or a
boolean. -/
inductive PyValue where
  | pystr (s : String)
  | pybool (b : Bool)
deriving DecidableEq, Repr

/-- Embedding of `SkyQClient.get_power_status` (client.py lines
152-158): calls `get_services` and returns the string `"ON"` on
success, the string `"POWERED OFF"` on any exception.  It never reads
the `activeStandby` flag and never returns a boolean. -/
def get_power_status (d : SkyQDevice) : PyValue :=
  match get_services d with
  | some _ => PyValue.pystr "ON"
  | none => PyValue.pystr "POWERED OFF"

/-- Python `x is True`. -/
def pyIsTrue : PyValue → Bool
  | PyValue.pybool true => true
  | _ => false

/-- Python `x is False`. -/
def pyIsFalse : PyValue → Bool
  | PyValue.pybool false => true
  | _ => false

/-- The three branches of the `Commands.ON` handler in
`SkyQRemote.command_handler` (remote.py lines 312-325): send a power
toggle because the device is in standby, do nothing because it is
already on, or fall back to a blind power toggle because the power state
could not be determined. -/
inductive PowerBranch where
  | toggleBecauseStandby
  | noActionAlreadyOn
  | fallbackToggle
deriving DecidableEq, Repr

/-- Embedding of the branch selection of the `Commands.ON` handler in
`SkyQRemote.command_handler` (remote.py lines 312-325):
`is_in_standby = await self.client.get_power_status()`, then
`if is_in_standby is True: ... elif is_in_standby is False: ... else:`
fallback.  The `Commands.OFF` handler (lines 327-340) performs the same
two identity tests in the opposite order. -/
def power_on_branch (d : SkyQDevice) : PowerBranch :=
  let v := get_power_status d
  if pyIsTrue v then PowerBranch.toggleBecauseStandby
  else if pyIsFalse v then PowerBranch.noActionAlreadyOn
  else PowerBranch.fallbackToggle

/-- HTTP calls the status-refresh path can make. -/
inductive HttpCall where
  | systemInformation
  | services
deriving DecidableEq, Repr, BEq

/-- The shape of the dictionary returned by
`SkyQClient.get_system_status` (client.py lines 433-465): on success the
full document (whose `system.powerState` is the hard-coded string
`"on"`, line 450, and which has no `playback` key), on any exception the
`{"error": ..., "timestamp": ...}` document (lines 460-465).  Both are
non-empty (truthy) dictionaries, and the function never raises. -/
inductive StatusDoc where
  | okDoc (activeStandby : Bool)
  | errorDoc
deriving DecidableEq, Repr

/-- Embedding of `SkyQClient.get_system_status` (client.py lines
433-465) together with the HTTP calls it performs: when the HTTP surface
is up it fetches `/as/system/information` and `/as/services` and builds
the full document; when the first fetch raises it returns the error
document having attempted only the system-information call. -/
def get_system_status (d : SkyQDevice) : StatusDoc × List HttpCall :=
  if d.httpUp then (StatusDoc.okDoc d.activeStandby, [HttpCall.systemInformation, HttpCall.services])
  else (StatusDoc.errorDoc, [HttpCall.systemInformation])

/-- The value of `status.get("system", {}).get("powerState", "unknown")`
in `SkyQMediaPlayer._update_status` (media_player.py lines 300-301): the
hard-coded `"on"` for the full document, `"unknown"` for the error
document (which has no `system` key). -/
def powerStateOf : StatusDoc → String
  | StatusDoc.okDoc _ => "on"
  | StatusDoc.errorDoc => "unknown"

/-- The entity states of `ucapi.media_player.States` that this refresh
path can produce or hold. -/
inductive PlayerState where
  | unknown
  | unavailable
  | standby
  | on
  | playing
  | paused
  | buffering
deriving DecidableEq, Repr

/-- The media-player attributes touched by
`SkyQMediaPlayer._update_status` (media_player.py lines 267-337). -/
structure PlayerAttrs where
  state : PlayerState
  volume : Nat
  muted : Bool
  mediaTitle : String
  mediaArtist : String
  mediaAlbum : String
  mediaDuration : Nat
  mediaPosition : Nat
  mediaImageUrl : String
  source : String
deriving DecidableEq, Repr

/-- The mutable media-player fields the refresh reads and writes:
the attribute set, `_available` and `_updating`. -/
structure PlayerModel where
  attrs : PlayerAttrs
  available : Bool
  updating : Bool
deriving DecidableEq, Repr

/-- The standby branch of `_update_status` (media_player.py lines
303-309): set `STATE` to `STANDBY` and clear the media title, artist,
album, duration and position.  Volume, muted, image URL and source are
left as they are. -/
def standbyAttrs (a : PlayerAttrs) : PlayerAttrs :=
  { a with state := PlayerState.standby, mediaTitle := "", mediaArtist := "",
           mediaAlbum := "", mediaDuration := 0, mediaPosition := 0 }

/-- The non-standby branch of `_update_status` (media_player.py lines
310-327) applied to `playback = status.get("playback", {}) = {}` (no
document produced by `get_system_status` has a `playback` key):
`playback_state = "unknown"` maps to `States.ON` through the
`state_mapping` default (lines 341-349), volume defaults to 50, muted to
`False`, the media fields to empty / zero, and `playback.get("channel")`
is `None`, so `SOURCE` is left unchanged. -/
def emptyPlaybackAttrs (a : PlayerAttrs) : PlayerAttrs :=
  { a with state := PlayerState.on, volume := 50, muted := false,
           mediaTitle := "", mediaArtist := "", mediaAlbum := "",
           mediaDuration := 0, mediaPosition := 0, mediaImageUrl := "" }

/-- Embedding of `SkyQMediaPlayer._update_status` (media_player.py lines
267-337), returning the new player model and the HTTP calls performed.
If `_updating` is set the call returns at once having done nothing
(lines 269-270).  Otherwise `get_system_status` is called; it never
raises, so the inner fallback (lines 277-290) never runs and `status` is
always a truthy dictionary, making the `if not status` guard (line 292)
dead; `_available` is then set to `True` (line 298) and the branch on
`powerState` runs.  The `finally` clause restores `_updating` (line
337), so the returned model keeps the caller's `updating` value.  No
clock is consulted anywhere on this path and there is no `force`
parameter. -/
def update_status (d : SkyQDevice) (p : PlayerModel) : PlayerModel × List HttpCall :=
  if p.updating then (p, [])
  else
    let sc := get_system_status d
    let p1 : PlayerModel := { p with available := true }
    let ps := powerStateOf sc.1
    if ps = "standby" ∨ ps = "off" then
      ({ p1 with attrs := standbyAttrs p1.attrs }, sc.2)
    else
      ({ p1 with attrs := emptyPlaybackAttrs p1.attrs }, sc.2)

/-- The TCP success rule as the specification words it (a refinement
definition written from the spec, not from the source, for comparison
with `send_single_tcp_command`): success iff the socket write completes
and either (a) the response starts with the acknowledgement prefix
`"SKY"`, or (b) no response arrives within the read timeout but no
connection error occurred; `lenient = true` selects rule (a)-or-(b),
`lenient = false` the strict rule (a) only. -/
def specSuccessRule (lenient : Bool) (b : NetBehavior) : Bool :=
  match b with
  | NetBehavior.replies r => pyStartsWith (pyStrip r) "SKY"
  | NetBehavior.silent => lenient
  | _ => false

/-- A device whose remote port acknowledges every command except the
third one of a sequence (index 2), for which the connection is
refused. -/
def deviceFailsThird : Nat → NetBehavior :=
  fun i => if i = 2 then NetBehavior.refuses else NetBehavior.replies "SKY ok"

/-- A device whose remote port acknowledges every command. -/
def devAllOk : Nat → NetBehavior :=
  fun _ => NetBehavior.replies "SKY ok"

/-- A healthy device: HTTP up, not in standby, TCP port acknowledging. -/
def devUp : SkyQDevice :=
  { httpUp := true, activeStandby := false,
    servicesKeys := ["documentId", "services"], tcp := NetBehavior.replies "SKY ok" }

/-- A device in active standby whose HTTP surface still answers but
whose TCP remote port refuses connections. -/
def devStandby : SkyQDevice :=
  { httpUp := true, activeStandby := true,
    servicesKeys := ["documentId", "services"], tcp := NetBehavior.refuses }

/-- A device whose HTTP surface is unreachable (every REST request
raises). -/
def devDown : SkyQDevice :=
  { httpUp := false, activeStandby := false,
    servicesKeys := [], tcp := NetBehavior.refuses }

/-- A media player currently showing a live programme, not refreshing. -/
def samplePlayer : PlayerModel :=
  { attrs := { state := PlayerState.playing, volume := 30, muted := true,
               mediaTitle := "News at Ten", mediaArtist := "BBC One",
               mediaAlbum := "Live TV", mediaDuration := 3600,
               mediaPosition := 120, mediaImageUrl := "http://img",
               source := "101 - BBC One" },
    available := true, updating := false }

/-- The send loop never counts more successes than there are commands. -/
theorem press_loop_le (dev : Nat → NetBehavior) (cmds : List String) (i : Nat) :
    (press_loop dev cmds i).1 ≤ cmds.length := by
  induction cmds generalizing i with
  | nil => exact Nat.le_refl 0
  | cons c rest ih =>
      cases hsk : List.lookup c REMOTE_COMMANDS with
      | none =>
          simp only [press_loop, hsk, List.length_cons]
          exact Nat.le_succ_of_le (ih (i + 1))
      | some sk =>
          simp only [press_loop, hsk, List.length_cons]
          have h := ih (i + 1)
          have h2 : (if (send_single_tcp_command sk (dev i)).1 = true then 1 else 0) ≤ 1 := by
            split <;> omega
          omega

/-- Under the vocabulary validation, the send loop attempts every
command in order, translated through `REMOTE_COMMANDS`. -/
theorem press_loop_attempted (dev : Nat → NetBehavior) (cmds : List String) (i : Nat)
    (hval : ∀ c ∈ cmds, (List.lookup c REMOTE_COMMANDS).isSome = true) :
    (press_loop dev cmds i).2.1 = cmds.map skyqOf := by
  induction cmds generalizing i with
  | nil => rfl
  | cons c rest ih =>
      have hc : (List.lookup c REMOTE_COMMANDS).isSome = true := hval c (by simp)
      obtain ⟨sk, hsk⟩ := Option.isSome_iff_exists.mp hc
      have hrest := ih (i + 1) (fun x hx => hval x (List.mem_cons_of_mem c hx))
      simp [press_loop, hsk, hrest, skyqOf, List.map_cons]

/-- Under the vocabulary validation, the success count of the send loop
equals the number of commands exactly when every individual send
succeeded. -/
theorem press_loop_all_iff (dev : Nat → NetBehavior) (cmds : List String) (i : Nat)
    (hval : ∀ c ∈ cmds, (List.lookup c REMOTE_COMMANDS).isSome = true) :
    (press_loop dev cmds i).1 = cmds.length ↔
      ∀ b ∈ press_results dev cmds i, b = true := by
  induction cmds generalizing i with
  | nil => simp [press_loop, press_results]
  | cons c rest ih =>
      have hc : (List.lookup c REMOTE_COMMANDS).isSome = true := hval c (by simp)
      obtain ⟨sk, hsk⟩ := Option.isSome_iff_exists.mp hc
      have hrest := ih (i + 1) (fun x hx => hval x (List.mem_cons_of_mem c hx))
      have hle := press_loop_le dev rest (i + 1)
      simp only [press_loop, press_results, hsk, List.length_cons, List.mem_cons]
      constructor
      · intro h
        have hok : (send_single_tcp_command sk (dev i)).1 = true := by
          by_contra hno
          have hz : (if (send_single_tcp_command sk (dev i)).1 = true then 1 else 0) = 0 := by
            simp [hno]
          omega
        have hone : (if (send_single_tcp_command sk (dev i)).1 = true then 1 else 0) = 1 := by
          simp [hok]
        have hsum : (press_loop dev rest (i + 1)).1 = rest.length := by omega
        intro b hb
        rcases hb with hb | hb
        · exact hb.trans hok
        · exact hrest.mp hsum b hb
      · intro h
        have hok : (send_single_tcp_command sk (dev i)).1 = true := h _ (Or.inl rfl)
        have hone : (if (send_single_tcp_command sk (dev i)).1 = true then 1 else 0) = 1 := by
          simp [hok]
        have hsum : (press_loop dev rest (i + 1)).1 = rest.length :=
          hrest.mpr (fun b hb => h b (Or.inr hb))
        omega

/-- When `_updating` is clear, `_update_status` always takes the
non-standby branch (the power state is the hard-coded `"on"` on success
and `"unknown"` on failure, never `"standby"` or `"off"`), sets
`_available` to `True`, overwrites the attributes through the empty
`playback` dictionary, and performs exactly the HTTP calls of
`get_system_status`. -/
theorem update_status_run (d : SkyQDevice) (p : PlayerModel) (h : p.updating = false) :
    update_status d p =
      ({ p with available := true, attrs := emptyPlaybackAttrs p.attrs },
       (get_system_status d).2) := by
  have hcon : ∀ s : StatusDoc,
      ¬(powerStateOf s = "standby" ∨ powerStateOf s = "off") := by
    intro s; cases s <;> simp only [powerStateOf] <;> decide
  simp [update_status, h, if_neg (hcon (get_system_status d).1)]

/-- C1 counterexample: against a device that fails on the 3rd command,
`press(["1","0","1","select"])` returns `False`, but `"select"` IS still
written to the wire — the send loop of `press` has no short-circuit, so
the claim that no command after the first failure is sent is false. -/
theorem press_short_circuit_cex :
    (press deviceFailsThird ["1", "0", "1", "select"]).1 = false ∧
    (press deviceFailsThird ["1", "0", "1", "select"]).2.2.contains (WireEvent.wrote "select")
      = true := by
  decide

/-- C1 (amended): for every non-empty, fully validated command list,
`press` attempts every command in order — the attempted wire tokens are
exactly the whole list translated through `REMOTE_COMMANDS`, regardless
of failures — and returns `True` exactly when every individual send
succeeded.  It does return `False` when some command fails, but it does
not short-circuit: commands after a failure are still sent. -/
theorem press_sends_all_commands (dev : Nat → NetBehavior) (cmds : List String)
    (hne : cmds ≠ [])
    (hval : ∀ c ∈ cmds, (List.lookup c REMOTE_COMMANDS).isSome = true) :
    (press dev cmds).2.1 = cmds.map skyqOf ∧
    ((press dev cmds).1 = true ↔ ∀ b ∈ press_results dev cmds 0, b = true) := by
  have hemp : cmds.isEmpty = false := by
    cases cmds with
    | nil => exact absurd rfl hne
    | cons c rest => rfl
  have hany : cmds.any (fun c => (List.lookup c REMOTE_COMMANDS).isNone) = false := by
    rw [List.any_eq_false]
    intro x hx
    have := hval x hx
    cases hcase : List.lookup x REMOTE_COMMANDS with
    | none => rw [hcase] at this; exact absurd this (by simp)
    | some sk => simp [hcase]
  constructor
  · simp only [press, hemp, hany, Bool.false_eq_true, if_false]
    exact press_loop_attempted dev cmds 0 hval
  · simp only [press, hemp, hany, Bool.false_eq_true, if_false, beq_iff_eq]
    exact press_loop_all_iff dev cmds 0 hval

/-- C1 witness: concrete application of `press_sends_all_commands` to
the two-command list `["1","select"]` on an all-acknowledging device. -/
theorem press_sends_all_commands_witness :
    ((["1", "select"] : List String) ≠ [] ∧
      ∀ c ∈ (["1", "select"] : List String), (List.lookup c REMOTE_COMMANDS).isSome = true) ∧
    ((press devAllOk ["1", "select"]).2.1 = (["1", "select"] : List String).map skyqOf ∧
      ((press devAllOk ["1", "select"]).1 = true ↔
        ∀ b ∈ press_results devAllOk ["1", "select"] 0, b = true)) :=
  ⟨⟨by decide, by decide⟩,
    press_sends_all_commands devAllOk ["1", "select"] (by decide) (by decide)⟩

/-- C2 counterexample: the claimed lenient rule classifies a silent
device (write completed, read timed out, no connection error) as a
success, but `_send_single_tcp_command` returns `False` there — the
read-timeout exception is caught and becomes failure, and no
strict/lenient configuration exists. -/
theorem tcp_success_rule_cex :
    specSuccessRule true NetBehavior.silent = true ∧
    (send_single_tcp_command "pause" NetBehavior.silent).1 = false := by
  decide

/-- C2 (amended): for every command and every network behaviour, the
send is classified as a success exactly by the strict rule — the
exchange completes and the stripped response starts with `"SKY"`;
read timeouts and all connection errors are failures, and there is no
configurable mode (the code unconditionally implements
`specSuccessRule false`). -/
theorem tcp_success_strict_rule_only (cmd : String) (b : NetBehavior) :
    (send_single_tcp_command cmd b).1 = specSuccessRule false b := by
  cases b <;> rfl

/-- C3 (code bug): `get_power_status` never parses the standby flag of
the device-info payload and never returns a boolean — it returns the
string `"ON"` whenever the HTTP surface answers (whatever the
`activeStandby` flag says) and `"POWERED OFF"` otherwise; consequently
the `is True` / `is False` branches of the remote entity's ON handler
are unreachable and the handler always takes the blind fallback toggle,
contradicting the inline comments at remote.py lines 313 and 328. -/
theorem power_status_string_bug :
    (∀ (standby : Bool) (ks : List String) (t : NetBehavior),
      get_power_status ⟨true, standby, ks, t⟩ = PyValue.pystr "ON" ∧
      power_on_branch ⟨true, standby, ks, t⟩ = PowerBranch.fallbackToggle) ∧
    (∀ (standby : Bool) (ks : List String) (t : NetBehavior),
      get_power_status ⟨false, standby, ks, t⟩ = PyValue.pystr "POWERED OFF" ∧
      power_on_branch ⟨false, standby, ks, t⟩ = PowerBranch.fallbackToggle) :=
  ⟨fun _ _ _ => ⟨rfl, rfl⟩, fun _ _ _ => ⟨rfl, rfl⟩⟩

/-- C4 (code bug): the `writer.close()` of `_send_single_tcp_command`
sits inside the try-block, so on the read-timeout path (connection
opened, command written, no response) the raise skips it and the
connection is left open: after that send one connection remains open,
not zero.  The success path does close its connection. -/
theorem tcp_connection_leak_on_timeout :
    (send_single_tcp_command "pause" NetBehavior.silent).1 = false ∧
    openConnectionsAfter (send_single_tcp_command "pause" NetBehavior.silent).2 = 1 ∧
    openConnectionsAfter (send_single_tcp_command "pause" (NetBehavior.replies "SKY ok")).2
      = 0 := by
  decide

/-- C5 counterexample: a device whose HTTP surface answers with a
services document but whose TCP remote port refuses connections is
reported as connected — `test_connection` returns `True`, not the
`False` the claim requires. -/
theorem test_connection_ignores_tcp_cex :
    devStandby.tcp = NetBehavior.refuses ∧ test_connection devStandby = true := by
  decide

/-- C5 (amended): `test_connection` checks only the HTTP surface: its
result is independent of the TCP remote port's behaviour, and it
returns `True` exactly when the HTTP services call succeeds with a
document containing the `"services"` key. -/
theorem test_connection_http_only (hu a : Bool) (ks : List String) (t t2 : NetBehavior) :
    test_connection ⟨hu, a, ks, t⟩ = test_connection ⟨hu, a, ks, t2⟩ ∧
    (test_connection ⟨hu, a, ks, t⟩ = true ↔ hu = true ∧ ks.contains "services" = true) := by
  cases hu <;> simp [test_connection, get_services]

/-- C6 counterexample: two immediately consecutive refreshes both query
the device — the second performs the full pair of HTTP calls instead of
being skipped by a rate limiter, because `_update_status` consults no
clock and has no minimum-interval logic (nor any `force` flag). -/
theorem refresh_not_rate_limited_cex :
    (update_status devUp samplePlayer).2 = [HttpCall.systemInformation, HttpCall.services] ∧
    (update_status devUp (update_status devUp samplePlayer).1).2
      = [HttpCall.systemInformation, HttpCall.services] := by
  decide

/-- C6 (amended): status refresh is not rate-limited: every call made
while no other refresh is in progress performs the device queries of
`get_system_status` (always at least one HTTP call), however recent the
previous refresh was; the only guard is the `_updating` re-entrancy
flag, and no `force` parameter exists. -/
theorem refresh_always_queries (d : SkyQDevice) (p : PlayerModel)
    (h : p.updating = false) :
    (update_status d p).2 = (get_system_status d).2 ∧ (update_status d p).2 ≠ [] := by
  rw [update_status_run d p h]
  refine ⟨rfl, ?_⟩
  simp only [get_system_status]
  cases d.httpUp <;> simp

/-- C6 witness: concrete application of `refresh_always_queries` to the
healthy device and the sample player. -/
theorem refresh_always_queries_witness :
    samplePlayer.updating = false ∧
    ((update_status devUp samplePlayer).2 = (get_system_status devUp).2 ∧
      (update_status devUp samplePlayer).2 ≠ []) :=
  ⟨rfl, refresh_always_queries devUp samplePlayer rfl⟩

/-- C7 counterexample: refreshing against a device that reports standby
(`activeStandby = true`) still performs the services HTTP call and ends
with state `ON`, not the minimal off shape — `get_system_status`
hard-codes `powerState = "on"`, so the standby branch of
`_update_status` is never reached and no early return happens. -/
theorem refresh_standby_cex :
    devStandby.activeStandby = true ∧
    (update_status devStandby samplePlayer).2.contains HttpCall.services = true ∧
    (update_status devStandby samplePlayer).1.attrs.state = PlayerState.on := by
  decide

/-- C7 (amended): for every refresh against a device whose HTTP surface
answers (standby or not), the refresh performs both the
system-information and the services HTTP calls — the full
`get_system_status` fetch happens before any power check — and the
resulting state is `ON`, because the fetched `powerState` is the
hard-coded `"on"`; the standby early-return branch is never taken. -/
theorem refresh_queries_services_always (d : SkyQDevice) (p : PlayerModel)
    (hup : d.httpUp = true) (h : p.updating = false) :
    (update_status d p).2 = [HttpCall.systemInformation, HttpCall.services] ∧
    (update_status d p).1.attrs.state = PlayerState.on := by
  rw [update_status_run d p h]
  simp [get_system_status, hup, emptyPlaybackAttrs]

/-- C7 witness: concrete application of `refresh_queries_services_always`
to the standby device and the sample player. -/
theorem refresh_queries_services_always_witness :
    (devStandby.httpUp = true ∧ samplePlayer.updating = false) ∧
    ((update_status devStandby samplePlayer).2
        = [HttpCall.systemInformation, HttpCall.services] ∧
      (update_status devStandby samplePlayer).1.attrs.state = PlayerState.on) :=
  ⟨⟨rfl, rfl⟩, refresh_queries_services_always devStandby samplePlayer rfl rfl⟩

/-- C8 counterexample: when every HTTP request raises during a refresh,
the previously cached status is NOT left untouched: the playing state
becomes `ON`, the media title is cleared, availability is set `True` —
the error document of `get_system_status` flows through the ordinary
update branch instead of preserving the stale value. -/
theorem refresh_failure_clobbers_cex :
    devDown.httpUp = false ∧
    samplePlayer.attrs.state = PlayerState.playing ∧
    samplePlayer.attrs.mediaTitle = "News at Ten" ∧
    (update_status devDown samplePlayer).1.attrs.state = PlayerState.on ∧
    (update_status devDown samplePlayer).1.attrs.mediaTitle = "" ∧
    (update_status devDown samplePlayer).1.available = true := by
  decide

/-- C8 (amended): no exception propagates out of a failed refresh
(`get_system_status` converts it into the error document and
`update_status` is total), but the cached status is not preserved: the
refresh sets availability to `True`, state to `ON`, volume to 50, muted
to `false`, and clears the media fields; only the `source` attribute
keeps its previous value. -/
theorem refresh_failure_resets_attrs (d : SkyQDevice) (p : PlayerModel)
    (_hdown : d.httpUp = false) (h : p.updating = false) :
    (update_status d p).1
      = { p with available := true, attrs := emptyPlaybackAttrs p.attrs } ∧
    (update_status d p).1.attrs.source = p.attrs.source := by
  rw [update_status_run d p h]
  exact ⟨rfl, rfl⟩

/-- C8 witness: concrete application of `refresh_failure_resets_attrs`
to the unreachable device and the sample player. -/
theorem refresh_failure_resets_attrs_witness :
    (devDown.httpUp = false ∧ samplePlayer.updating = false) ∧
    ((update_status devDown samplePlayer).1
        = { samplePlayer with available := true,
                              attrs := emptyPlaybackAttrs samplePlayer.attrs } ∧
      (update_status devDown samplePlayer).1.attrs.source = samplePlayer.attrs.source) :=
  ⟨⟨rfl, rfl⟩, refresh_failure_resets_attrs devDown samplePlayer rfl rfl⟩

/-- C9: for every command and every transport failure condition
(connection refused, host unreachable, connect timeout, read timeout),
the body of `_send_single_tcp_command` raises, the `except` handler
catches it, and the caller receives the result value `False` — no
exception crosses the channel boundary. -/
theorem tcp_failures_return_result (cmd : String) (b : NetBehavior)
    (hfail : b = NetBehavior.refuses ∨ b = NetBehavior.unreachable ∨
             b = NetBehavior.connectSlow ∨ b = NetBehavior.silent) :
    ∃ e evs, send_single_tcp_command_body cmd b = Except.error (e, evs) ∧
      send_single_tcp_command cmd b = (false, evs) := by
  rcases hfail with h | h | h | h <;> subst h <;> exact ⟨_, _, rfl, rfl⟩

/-- C9 witness: concrete application of `tcp_failures_return_result` to
the read-timeout condition. -/
theorem tcp_failures_return_result_witness :
    (NetBehavior.silent = NetBehavior.refuses ∨
      NetBehavior.silent = NetBehavior.unreachable ∨
      NetBehavior.silent = NetBehavior.connectSlow ∨
      NetBehavior.silent = NetBehavior.silent) ∧
    (∃ e evs, send_single_tcp_command_body "pause" NetBehavior.silent
        = Except.error (e, evs) ∧
      send_single_tcp_command "pause" NetBehavior.silent = (false, evs)) :=
  ⟨by decide, tcp_failures_return_result "pause" NetBehavior.silent (by decide)⟩

/-- C10: `press` validates its whole input before any network activity:
for every command list that is empty or contains a token outside
`REMOTE_COMMANDS`, it returns `False` having attempted no send and
produced no wire event — no connection is opened and nothing is sent. -/
theorem press_validates_before_send (dev : Nat → NetBehavior) (cmds : List String)
    (h : cmds = [] ∨ ∃ c ∈ cmds, (List.lookup c REMOTE_COMMANDS).isNone = true) :
    press dev cmds = (false, [], []) := by
  rcases h with h | ⟨c, hc, hnone⟩
  · subst h; rfl
  · have hany : cmds.any (fun c => (List.lookup c REMOTE_COMMANDS).isNone) = true :=
      List.any_eq_true.mpr ⟨c, hc, hnone⟩
    cases cmds with
    | nil => rfl
    | cons x rest => simp [press, hany]

/-- C10 witness: concrete application of `press_validates_before_send`
to a list containing the out-of-vocabulary token `"bogus"`. -/
theorem press_validates_before_send_witness :
    ((["1", "bogus"] : List String) = [] ∨
      ∃ c ∈ (["1", "bogus"] : List String),
        (List.lookup c REMOTE_COMMANDS).isNone = true) ∧
    press (fun _ => NetBehavior.refuses) ["1", "bogus"] = (false, [], []) :=
  ⟨Or.inr ⟨"bogus", by decide, by decide⟩,
    press_validates_before_send (fun _ => NetBehavior.refuses) ["1", "bogus"]
      (Or.inr ⟨"bogus", by decide, by decide⟩)⟩

end SkyQ
